import Mathlib

/-!
Shallow embedding of the `spotify-wrapper` library (src/src/wrapper.ts).

The library is a thin client over the Spotify Web API.  We model:
  * JSON values (`Json`) as the data exchanged with the transport;
  * the HTTP transport as a pure function `Transport : HttpCall → HttpResult`
    (`failure` covers both a rejected request and a non-2xx response, the two
    cases in which axios throws and the `catch` branch runs);
  * the `Wrapper` object's state (`clientId`, `clientSecret`, `accessToken`);
  * every method as an explicit state-passing function returning the method's
    result, the state after the call, and the ordered trace of HTTP calls
    issued (the trace makes "authenticate is called once per request" and
    "N feature requests are made" provable statements);
  * a JavaScript property access `x.f` as `accessField` (throwing on `null`,
    yielding `undefined = none` on absent fields), `x?.f` chains via
    `optChain1` / `optChain2`, JS truthiness via `jsFalsy`, and template
    literal stringification via `jsTemplate`.

`Promise.all` over the per-track feature fetches is modelled by the
sequential loop `analyzeLoop`: JavaScript's `Promise.all` resolves to the
array of results in input order, independent of completion order, which is
exactly what the loop produces; results of indiviual fetches depend only on
the pure transport, so the interleaving of in-flight requests is invisible.
-/

/-- JSON values, as delivered by the transport. -/
inductive Json where
  | null : Json
  | bool : Bool → Json
  | num : Int → Json
  | str : String → Json
  | arr : List Json → Json
  | obj : List (String × Json) → Json
deriving Repr

/-- `true` exactly on `Json.null`. -/
def Json.isNull : Json → Bool
  | .null => true
  | _ => false

/-- JavaScript property access `j.k` for a non-`undefined` receiver:
`null.k` throws a TypeError (`Except.error`); on an object it yields the
field's value, or `none` (JS `undefined`) when the key is absent; on any
other value (number, string, boolean, array without that key) it yields
`none`. -/
def accessField : Json → String → Except Unit (Option Json)
  | .null, _ => .error ()
  | .obj fs, k => .ok (fs.lookup k)
  | _, _ => .ok none

/-- JavaScript string coercion used by template literals (`String(v)`):
arrays join their elements with commas, `null` elements stringify to the
empty string, plain objects become "[object Object]". -/
def Json.jsToString : Json → String
  | .null => "null"
  | .bool b => cond b "true" "false"
  | .num n => toString n
  | .str s => s
  | .obj _ => "[object Object]"
  | .arr xs => String.intercalate "," (xs.attach.map fun x =>
      if x.1.isNull then "" else Json.jsToString x.1)
decreasing_by
  have h := List.sizeOf_lt_of_mem x.2
  simp only [Json.arr.sizeOf_spec]
  omega

/-- Template literal stringification of a possibly-`undefined` value. -/
def jsTemplate : Option Json → String
  | none => "undefined"
  | some j => j.jsToString

/-- JS falsiness of a possibly-`undefined` value: `undefined`, `null`,
`false`, `0` and the empty string are falsy. -/
def jsFalsy : Option Json → Bool
  | none => true
  | some .null => true
  | some (.bool false) => true
  | some (.num 0) => true
  | some (.str "") => true
  | _ => false

/-- Models `data?.f` where `data` may be `undefined`: short-circuits to
`undefined` on `undefined`/`null`, otherwise a plain property access. -/
def optChain1 (data : Option Json) (f : String) : Option Json :=
  match data with
  | none => none
  | some .null => none
  | some j =>
    match accessField j f with
    | .ok v => v
    | .error _ => none

/-- Models `data?.f1.f2`: the optional chain guards only `data`, so when
`data.f1` is `undefined` or `null` the second access throws. -/
def optChain2 (data : Option Json) (f1 f2 : String) : Except Unit (Option Json) :=
  match data with
  | none => .ok none
  | some .null => .ok none
  | some j =>
    match accessField j f1 with
    | .error _ => .error ()
    | .ok none => .error ()
    | .ok (some v) => accessField v f2

/-- One HTTP call, as observed at the transport: the client-credentials
token POST (with the basic-auth credentials), a bearer-authenticated GET
with query parameters, or a bearer-authenticated JSON POST.  The `bearer`
field records the `accessToken` value the wrapper held when it built the
request options. -/
inductive HttpCall where
  | postToken : String → String → HttpCall
  | get : String → List (String × String) → Option Json → HttpCall
  | postJson : String → Json → Option Json → HttpCall

/-- Outcome of one HTTP call: a 2xx response carrying a JSON body, or a
failure (non-2xx status or network rejection — both make axios throw). -/
inductive HttpResult where
  | success : Json → HttpResult
  | failure : HttpResult

/-- The transport: a pure mapping from calls to outcomes. -/
def Transport := HttpCall → HttpResult

/-- State of a `Wrapper` instance: the credentials fixed at construction
and the mutable `accessToken` (initially `null`, modelled as `none`). -/
structure WrapperState where
  clientId : String
  clientSecret : String
  accessToken : Option Json

/-- `new Wrapper(clientId, clientSecret)`. -/
def mkWrapper (clientId clientSecret : String) : WrapperState :=
  ⟨clientId, clientSecret, none⟩

/-- `Wrapper.authenticate`: POST the client-credentials grant; on success
store `response.data.access_token` (a property access, which throws only
when the body is `null`, in which case the `catch` runs and the token keeps
its previous value); on failure log and keep the previous token.  Returns
the state after the call and the trace. -/
def authenticate (t : Transport) (s : WrapperState) : WrapperState × List HttpCall :=
  let ev := HttpCall.postToken s.clientId s.clientSecret
  match t ev with
  | .success body =>
    match accessField body "access_token" with
    | .ok v => ({ s with accessToken := v }, [ev])
    | .error _ => (s, [ev])
  | .failure => (s, [ev])

/-- `Wrapper.makeRequest`: always authenticate first, then GET with the
bearer token now held; return the parsed body on success, `undefined` on
any failure. -/
def makeRequest (t : Transport) (url : String) (params : List (String × String))
    (s : WrapperState) : Option Json × WrapperState × List HttpCall :=
  let a := authenticate t s
  let ev := HttpCall.get url params a.1.accessToken
  match t ev with
  | .success body => (some body, a.1, a.2 ++ [ev])
  | .failure => (none, a.1, a.2 ++ [ev])

/-- `Wrapper.getPlaylist`. -/
def getPlaylist (t : Transport) (playlistId : String) (s : WrapperState) :
    Option Json × WrapperState × List HttpCall :=
  makeRequest t ("https://api.spotify.com/v1/playlists/" ++ playlistId) [] s

/-- `Wrapper.searchTracks`: `data?.tracks.items` — the optional chain
guards only `data`, so a present body whose `tracks` field is missing or
`null` makes the second access throw (`Except.error`). -/
def searchTracks (t : Transport) (query : String) (s : WrapperState) :
    Except Unit (Option Json) × WrapperState × List HttpCall :=
  let r := makeRequest t "https://api.spotify.com/v1/search"
    [("q", query), ("type", "track")] s
  (optChain2 r.1 "tracks" "items", r.2.1, r.2.2)

/-- `Wrapper.getAlbum`. -/
def getAlbum (t : Transport) (albumId : String) (s : WrapperState) :
    Option Json × WrapperState × List HttpCall :=
  makeRequest t ("https://api.spotify.com/v1/albums/" ++ albumId) [] s

/-- `Wrapper.getArtist`. -/
def getArtist (t : Transport) (artistId : String) (s : WrapperState) :
    Option Json × WrapperState × List HttpCall :=
  makeRequest t ("https://api.spotify.com/v1/artists/" ++ artistId) [] s

/-- `Wrapper.getUserProfile`. -/
def getUserProfile (t : Transport) (userId : String) (s : WrapperState) :
    Option Json × WrapperState × List HttpCall :=
  makeRequest t ("https://api.spotify.com/v1/users/" ++ userId) [] s

/-- `Wrapper.getArtistTopTracks`: `data?.tracks`. -/
def getArtistTopTracks (t : Transport) (artistId market : String) (s : WrapperState) :
    Option Json × WrapperState × List HttpCall :=
  let r := makeRequest t
    ("https://api.spotify.com/v1/artists/" ++ artistId ++ "/top-tracks")
    [("market", market)] s
  (optChain1 r.1 "tracks", r.2.1, r.2.2)

/-- `Wrapper.getArtistAlbums`: `data?.items`. -/
def getArtistAlbums (t : Transport) (artistId : String) (s : WrapperState) :
    Option Json × WrapperState × List HttpCall :=
  let r := makeRequest t
    ("https://api.spotify.com/v1/artists/" ++ artistId ++ "/albums") [] s
  (optChain1 r.1 "items", r.2.1, r.2.2)

/-- `Wrapper.createPlaylist`: one JSON POST using the token currently held
(no `authenticate` beforehand); returns the created body on success,
`undefined` on failure.  State is unchanged. -/
def createPlaylist (t : Transport) (userId nm description : String)
    (publicStatus : Bool) (s : WrapperState) :
    Option Json × WrapperState × List HttpCall :=
  let body := Json.obj
    [("name", Json.str nm), ("description", Json.str description),
     ("public", Json.bool publicStatus)]
  let ev := HttpCall.postJson
    ("https://api.spotify.com/v1/users/" ++ userId ++ "/playlists")
    body s.accessToken
  match t ev with
  | .success b => (some b, s, [ev])
  | .failure => (none, s, [ev])

/-- `Wrapper.addTracksToPlaylist`: one JSON POST using the token currently
held (no `authenticate` beforehand); the response is discarded and the
method resolves to no value whether the POST succeeds or fails. -/
def addTracksToPlaylist (t : Transport) (playlistId : String)
    (trackUris : List String) (s : WrapperState) :
    Unit × WrapperState × List HttpCall :=
  let body := Json.obj [("uris", Json.arr (trackUris.map Json.str))]
  let ev := HttpCall.postJson
    ("https://api.spotify.com/v1/playlists/" ++ playlistId ++ "/tracks")
    body s.accessToken
  match t ev with
  | .success _ => ((), s, [ev])
  | .failure => ((), s, [ev])

/-- URL of the audio-features endpoint for a track id value, as built by
the template literal in `TrackAnalysis.getTrackFeatures` (the id is
string-coerced when it is not already a string). -/
def featUrl (idv : Option Json) : String :=
  "https://api.spotify.com/v1/audio-features/" ++ jsTemplate idv

/-- `TrackAnalysis.getTrackFeatures`: delegates to `makeRequest` on the
audio-features endpoint. -/
def getTrackFeatures (t : Transport) (trackId : String) (s : WrapperState) :
    Option Json × WrapperState × List HttpCall :=
  makeRequest t ("https://api.spotify.com/v1/audio-features/" ++ trackId) [] s

/-- The playlist items array `playlist.tracks.items`, as accessed in
`analyzePlaylist`: throws when `tracks` is missing or `null`, when `items`
is missing, or when `items` is not an array (`.map` is then not callable). -/
def getItemsArray (p : Json) : Except Unit (List Json) :=
  match accessField p "tracks" with
  | .error _ => .error ()
  | .ok none => .error ()
  | .ok (some tr) =>
    match accessField tr "items" with
    | .error _ => .error ()
    | .ok none => .error ()
    | .ok (some (.arr xs)) => .ok xs
    | .ok (some _) => .error ()

/-- `item.track.id` as evaluated by the `map` callback: throws when
`item` is `null` or `item.track` is missing or `null`. -/
def getItemTrackId (item : Json) : Except Unit (Option Json) :=
  match accessField item "track" with
  | .error _ => .error ()
  | .ok none => .error ()
  | .ok (some tk) => accessField tk "id"

/-- The fan-out of `analyzePlaylist`: one `getTrackFeatures` call per item
(the callback first evaluates `item.track.id`, throwing on a malformed
item), results collected in input order as `Promise.all` does. -/
def analyzeLoop (t : Transport) :
    List Json → WrapperState →
    Except Unit (List (Option Json)) × WrapperState × List HttpCall
  | [], s => (.ok [], s, [])
  | item :: rest, s =>
    match getItemTrackId item with
    | .error e => (.error e, s, [])
    | .ok idv =>
      let r := makeRequest t (featUrl idv) [] s
      let rec' := analyzeLoop t rest r.2.1
      match rec'.1 with
      | .error e => (.error e, rec'.2.1, r.2.2 ++ rec'.2.2)
      | .ok rs => (.ok (r.1 :: rs), rec'.2.1, r.2.2 ++ rec'.2.2)

/-- `TrackAnalysis.analyzePlaylist`: fetch the playlist; the falsy check
`if (!playlist) return;` yields `undefined` (`Except.ok none`) on an
absent or falsy playlist; otherwise map `getTrackFeatures` over
`playlist.tracks.items` and await them all. -/
def analyzePlaylist (t : Transport) (playlistId : String) (s : WrapperState) :
    Except Unit (Option (List (Option Json))) × WrapperState × List HttpCall :=
  let pr := getPlaylist t playlistId s
  match pr.1 with
  | none => (.ok none, pr.2.1, pr.2.2)
  | some p =>
    if jsFalsy (some p) then (.ok none, pr.2.1, pr.2.2)
    else
      match getItemsArray p with
      | .error _ => (.error (), pr.2.1, pr.2.2)
      | .ok items =>
        let lr := analyzeLoop t items pr.2.1
        match lr.1 with
        | .error _ => (.error (), lr.2.1, pr.2.2 ++ lr.2.2)
        | .ok rs => (.ok (some rs), lr.2.1, pr.2.2 ++ lr.2.2)

/-! ## Characterization helpers -/

/-- The body a transport delivers for a call, `none` on failure: the shape
of every `makeRequest`-style return value. -/
def getResult (t : Transport) (ev : HttpCall) : Option Json :=
  match t ev with
  | .success b => some b
  | .failure => none

/-- The access token held after one `authenticate` against transport `t`
with credentials `cid`/`csec`, starting from token `tok`. -/
def authToken (t : Transport) (cid csec : String) (tok : Option Json) : Option Json :=
  match t (HttpCall.postToken cid csec) with
  | .success body =>
    match accessField body "access_token" with
    | .ok v => v
    | .error _ => tok
  | .failure => tok

/-- `true` exactly on GET events. -/
def isGetEvent : HttpCall → Bool
  | .get _ _ _ => true
  | _ => false

/-- `true` exactly on token-POST (authentication) events. -/
def isAuthEvent : HttpCall → Bool
  | .postToken _ _ => true
  | _ => false

/-- The track id of each item of a playlist, as the `map` callback of
`analyzePlaylist` would read them, short-circuiting on the first throwing
item. -/
def idsOfItems : List Json → Except Unit (List (Option Json))
  | [] => .ok []
  | it :: rest =>
    match getItemTrackId it with
    | .error e => .error e
    | .ok v =>
      match idsOfItems rest with
      | .error e => .error e
      | .ok vs => .ok (v :: vs)

/-- The token held right after the `authenticate` that a `makeRequest`
against transport `t` from state `s` performs. -/
def tokenAfter (t : Transport) (s : WrapperState) : Option Json :=
  authToken t s.clientId s.clientSecret s.accessToken

/-! ### Concrete fixtures (mock transports and states used as witnesses) -/

/-- A freshly constructed wrapper with no token yet. -/
def sampleState : WrapperState := mkWrapper "id1" "secret1"

/-- Token-endpoint body carrying `access_token = "tok"`. -/
def tokenBody : Json := Json.obj [("access_token", Json.str "tok")]

/-- Transport whose token POST succeeds but every GET fails. -/
def tAllGetsFail : Transport := fun c =>
  match c with
  | .get _ _ _ => .failure
  | _ => .success tokenBody

/-- Transport on which every call fails. -/
def tAllFail : Transport := fun _ => .failure

/-- The spec's two-track playlist body for playlist `p1`. -/
def playlistBody : Json := Json.obj
  [("id", Json.str "p1"), ("name", Json.str "Mix"),
   ("tracks", Json.obj [("items", Json.arr
     [Json.obj [("track", Json.obj [("id", Json.str "t1"), ("name", Json.str "A")])],
      Json.obj [("track", Json.obj [("id", Json.str "t2"), ("name", Json.str "B")])]])])]

/-- Audio-features body for track `t1`. -/
def featBody1 : Json := Json.obj [("danceability", Json.num 1)]

/-- Spec scenario transport: playlist `p1` has tracks `t1`, `t2`; the
feature fetch succeeds for `t1` and fails for `t2`. -/
def tScenario : Transport := fun c =>
  match c with
  | .postToken _ _ => .success tokenBody
  | .get u _ _ =>
    if u = "https://api.spotify.com/v1/playlists/p1" then .success playlistBody
    else if u = "https://api.spotify.com/v1/audio-features/t1" then .success featBody1
    else .failure
  | .postJson _ _ _ => .failure

/-- A playlist body with an empty `tracks.items` array. -/
def emptyPlaylistBody : Json := Json.obj
  [("id", Json.str "p2"), ("name", Json.str "Empty"),
   ("tracks", Json.obj [("items", Json.arr [])])]

/-- Transport serving the empty playlist `p2`. -/
def tEmptyPlaylist : Transport := fun c =>
  match c with
  | .postToken _ _ => .success tokenBody
  | .get u _ _ =>
    if u = "https://api.spotify.com/v1/playlists/p2" then .success emptyPlaylistBody
    else .failure
  | .postJson _ _ _ => .failure

/-- Per-endpoint success bodies used in the unwrap witness. -/
def searchBody : Json := Json.obj
  [("tracks", Json.obj [("items", Json.arr [Json.obj [("id", Json.str "t1")]])])]

/-- Top-tracks envelope body. -/
def topTracksBody : Json := Json.obj
  [("tracks", Json.arr [Json.obj [("id", Json.str "t9")]])]

/-- Artist-albums paging body. -/
def artistAlbumsBody : Json := Json.obj
  [("items", Json.arr [Json.obj [("id", Json.str "al1")]])]

/-- Plain entity body returned verbatim by the non-unwrapping methods. -/
def entityBody : Json := Json.obj [("id", Json.str "x1"), ("name", Json.str "Entity")]

/-- Transport answering every endpoint of the unwrap scenario. -/
def tUnwrap : Transport := fun c =>
  match c with
  | .postToken _ _ => .success tokenBody
  | .get u _ _ =>
    if u = "https://api.spotify.com/v1/search" then .success searchBody
    else if u = "https://api.spotify.com/v1/artists/ar1/top-tracks" then .success topTracksBody
    else if u = "https://api.spotify.com/v1/artists/ar1/albums" then .success artistAlbumsBody
    else .success entityBody
  | .postJson _ _ _ => .failure

/-- Transport whose JSON POSTs succeed with a fixed created-playlist body. -/
def tPostOk : Transport := fun c =>
  match c with
  | .postJson _ _ _ => .success (Json.obj
      [("id", Json.str "pl1"), ("name", Json.str "My List"),
       ("tracks", Json.obj [("items", Json.arr [])])])
  | _ => .failure

theorem authenticate_eq (t : Transport) (s : WrapperState) :
    authenticate t s =
      ({ s with accessToken := authToken t s.clientId s.clientSecret s.accessToken },
       [HttpCall.postToken s.clientId s.clientSecret]) := by
  cases h : t (HttpCall.postToken s.clientId s.clientSecret) with
  | success body =>
    cases hf : accessField body "access_token" with
    | ok v => simp [authenticate, authToken, h, hf]
    | error e => simp [authenticate, authToken, h, hf]
  | failure => simp [authenticate, authToken, h]

theorem makeRequest_eq (t : Transport) (url : String)
    (params : List (String × String)) (s : WrapperState) :
    makeRequest t url params s =
      (getResult t (HttpCall.get url params
          (authToken t s.clientId s.clientSecret s.accessToken)),
       { s with accessToken := authToken t s.clientId s.clientSecret s.accessToken },
       [HttpCall.postToken s.clientId s.clientSecret,
        HttpCall.get url params
          (authToken t s.clientId s.clientSecret s.accessToken)]) := by
  cases h : t (HttpCall.get url params
      (authToken t s.clientId s.clientSecret s.accessToken)) with
  | success body => simp [makeRequest, authenticate_eq, getResult, h]
  | failure => simp [makeRequest, authenticate_eq, getResult, h]

theorem authToken_idem (t : Transport) (cid csec : String) (tok : Option Json) :
    authToken t cid csec (authToken t cid csec tok) = authToken t cid csec tok := by
  cases h : t (HttpCall.postToken cid csec) with
  | success body =>
    cases hf : accessField body "access_token" with
    | ok v => simp [authToken, h, hf]
    | error e => simp [authToken, h, hf]
  | failure => simp [authToken, h]

theorem idsOfItems_length (items : List Json) (ids : List (Option Json))
    (h : idsOfItems items = .ok ids) : ids.length = items.length := by
  induction items generalizing ids with
  | nil =>
    unfold idsOfItems at h
    cases h
    rfl
  | cons it rest ih =>
    unfold idsOfItems at h
    cases hid : getItemTrackId it with
    | error e => rw [hid] at h; cases h
    | ok v =>
      rw [hid] at h
      cases hrest : idsOfItems rest with
      | error e => rw [hrest] at h; cases h
      | ok vs =>
        rw [hrest] at h
        cases h
        simp [ih vs hrest]

/-- Under a stable token (one `authenticate` leaves it unchanged, which
holds for any state reached after an `authenticate` by `authToken_idem`),
the feature-fetch loop succeeds when every item is well formed, returns
the per-track transport results in input order, leaves the state fixed,
and its trace is one auth POST plus one feature GET per track. -/
theorem analyzeLoop_ok (t : Transport) (c k : String) (tok : Option Json)
    (hst : authToken t c k tok = tok) :
    ∀ (items : List Json) (ids : List (Option Json)),
      idsOfItems items = .ok ids →
      analyzeLoop t items ⟨c, k, tok⟩ =
        (.ok (ids.map fun v => getResult t (HttpCall.get (featUrl v) [] tok)),
         ⟨c, k, tok⟩,
         ids.flatMap fun v =>
           [HttpCall.postToken c k, HttpCall.get (featUrl v) [] tok]) := by
  intro items
  induction items with
  | nil =>
    intro ids h
    unfold idsOfItems at h
    cases h
    rfl
  | cons it rest ih =>
    intro ids h
    unfold idsOfItems at h
    cases hid : getItemTrackId it with
    | error e => rw [hid] at h; cases h
    | ok v =>
      rw [hid] at h
      cases hrest : idsOfItems rest with
      | error e => rw [hrest] at h; cases h
      | ok vs =>
        rw [hrest] at h
        cases h
        unfold analyzeLoop
        rw [hid]
        simp only [makeRequest_eq, hst, ih vs hrest]
        simp

/-! ## Claim theorems -/

/-- C1: if the transport fails every GET (non-2xx status or rejection),
then `makeRequest` and every read method built on it — `getPlaylist`,
`getAlbum`, `getArtist`, `getUserProfile`, `getArtistTopTracks`,
`getArtistAlbums`, `searchTracks` — resolve to the absent value, and none
of them raises (`searchTracks`, the only method whose unwrap can throw,
yields `Except.ok none`, not `Except.error`). -/
theorem c1_read_failure_yields_absent (t : Transport) (s : WrapperState)
    (url pid alid aid uid q market : String) (params : List (String × String))
    (hfail : ∀ u ps b, t (HttpCall.get u ps b) = HttpResult.failure) :
    (makeRequest t url params s).1 = none ∧
    (getPlaylist t pid s).1 = none ∧
    (getAlbum t alid s).1 = none ∧
    (getArtist t aid s).1 = none ∧
    (getUserProfile t uid s).1 = none ∧
    (getArtistTopTracks t aid market s).1 = none ∧
    (getArtistAlbums t aid s).1 = none ∧
    (searchTracks t q s).1 = Except.ok none := by
  have hm : ∀ u ps s', (makeRequest t u ps s').1 = none := by
    intro u ps s'
    rw [makeRequest_eq]
    simp [getResult, hfail]
  refine ⟨hm _ _ _, hm _ _ _, hm _ _ _, hm _ _ _, hm _ _ _, ?_, ?_, ?_⟩
  · simp [getArtistTopTracks, optChain1, hm]
  · simp [getArtistAlbums, optChain1, hm]
  · simp [searchTracks, optChain2, hm]

/-- C1 witness: the failure behaviour evaluated on the concrete
all-GETs-fail transport. -/
theorem c1_read_failure_yields_absent_witness :
    (makeRequest tAllGetsFail "https://api.spotify.com/v1/search" [] sampleState).1 = none ∧
    (getPlaylist tAllGetsFail "p1" sampleState).1 = none ∧
    (getAlbum tAllGetsFail "al1" sampleState).1 = none ∧
    (getArtist tAllGetsFail "ar1" sampleState).1 = none ∧
    (getUserProfile tAllGetsFail "u1" sampleState).1 = none ∧
    (getArtistTopTracks tAllGetsFail "ar1" "US" sampleState).1 = none ∧
    (getArtistAlbums tAllGetsFail "ar1" sampleState).1 = none ∧
    (searchTracks tAllGetsFail "hello" sampleState).1 = Except.ok none :=
  c1_read_failure_yields_absent tAllGetsFail sampleState
    "https://api.spotify.com/v1/search" "p1" "al1" "ar1" "u1" "hello" "US" []
    (fun _ _ _ => rfl)

/-- C3: every call to `makeRequest` — and hence every call made through
`getPlaylist`, `searchTracks`, `getAlbum`, `getArtist`, `getUserProfile`,
`getArtistTopTracks`, `getArtistAlbums` and `getTrackFeatures` — issues
exactly one authentication POST, placed before its single GET, whatever
token the state already holds. -/
theorem c3_authenticate_once_per_request (t : Transport) (s : WrapperState)
    (url pid alid aid uid q market tid : String) (params : List (String × String)) :
    (makeRequest t url params s).2.2 =
      [HttpCall.postToken s.clientId s.clientSecret,
       HttpCall.get url params (tokenAfter t s)] ∧
    ((makeRequest t url params s).2.2.countP isAuthEvent) = 1 ∧
    (getPlaylist t pid s).2.2 =
      [HttpCall.postToken s.clientId s.clientSecret,
       HttpCall.get ("https://api.spotify.com/v1/playlists/" ++ pid) [] (tokenAfter t s)] ∧
    (searchTracks t q s).2.2 =
      [HttpCall.postToken s.clientId s.clientSecret,
       HttpCall.get "https://api.spotify.com/v1/search"
         [("q", q), ("type", "track")] (tokenAfter t s)] ∧
    (getAlbum t alid s).2.2 =
      [HttpCall.postToken s.clientId s.clientSecret,
       HttpCall.get ("https://api.spotify.com/v1/albums/" ++ alid) [] (tokenAfter t s)] ∧
    (getArtist t aid s).2.2 =
      [HttpCall.postToken s.clientId s.clientSecret,
       HttpCall.get ("https://api.spotify.com/v1/artists/" ++ aid) [] (tokenAfter t s)] ∧
    (getUserProfile t uid s).2.2 =
      [HttpCall.postToken s.clientId s.clientSecret,
       HttpCall.get ("https://api.spotify.com/v1/users/" ++ uid) [] (tokenAfter t s)] ∧
    (getArtistTopTracks t aid market s).2.2 =
      [HttpCall.postToken s.clientId s.clientSecret,
       HttpCall.get ("https://api.spotify.com/v1/artists/" ++ aid ++ "/top-tracks")
         [("market", market)] (tokenAfter t s)] ∧
    (getArtistAlbums t aid s).2.2 =
      [HttpCall.postToken s.clientId s.clientSecret,
       HttpCall.get ("https://api.spotify.com/v1/artists/" ++ aid ++ "/albums")
         [] (tokenAfter t s)] ∧
    (getTrackFeatures t tid s).2.2 =
      [HttpCall.postToken s.clientId s.clientSecret,
       HttpCall.get ("https://api.spotify.com/v1/audio-features/" ++ tid)
         [] (tokenAfter t s)] := by
  refine ⟨?_, ?_, ?_, ?_, ?_, ?_, ?_, ?_, ?_, ?_⟩ <;>
    simp [makeRequest_eq, tokenAfter, getPlaylist, searchTracks, getAlbum, getArtist,
      getUserProfile, getArtistTopTracks, getArtistAlbums, getTrackFeatures,
      List.countP, List.countP.go, isAuthEvent]

/-- C5: when the underlying `makeRequest` of an envelope-unwrapping method
yields the absent value, the method itself yields the absent value as
well (for `searchTracks`: `ok none` — `undefined`, not a thrown error and
not an empty list). -/
theorem c5_unwrap_preserves_absent (t : Transport) (s : WrapperState)
    (q aid market : String)
    (h1 : (makeRequest t "https://api.spotify.com/v1/search"
        [("q", q), ("type", "track")] s).1 = none)
    (h2 : (makeRequest t ("https://api.spotify.com/v1/artists/" ++ aid ++ "/top-tracks")
        [("market", market)] s).1 = none)
    (h3 : (makeRequest t ("https://api.spotify.com/v1/artists/" ++ aid ++ "/albums")
        [] s).1 = none) :
    (searchTracks t q s).1 = Except.ok none ∧
    (getArtistTopTracks t aid market s).1 = none ∧
    (getArtistAlbums t aid s).1 = none := by
  refine ⟨?_, ?_, ?_⟩
  · simp [searchTracks, h1, optChain2]
  · simp [getArtistTopTracks, h2, optChain1]
  · simp [getArtistAlbums, h3, optChain1]

/-- C5 witness: the absent-propagation evaluated on the concrete
all-GETs-fail transport. -/
theorem c5_unwrap_preserves_absent_witness :
    (searchTracks tAllGetsFail "hello" sampleState).1 = Except.ok none ∧
    (getArtistTopTracks tAllGetsFail "ar1" "US" sampleState).1 = none ∧
    (getArtistAlbums tAllGetsFail "ar1" sampleState).1 = none :=
  c5_unwrap_preserves_absent tAllGetsFail sampleState "hello" "ar1" "US" rfl rfl rfl

/-- C7: `createPlaylist` issues exactly one JSON POST — no authentication
POST precedes it — to the user's playlists endpoint, with body
`name`/`description`/`public` and the access token held at call time;
its result is the created body on success and the absent value on
failure (`getResult`), and the wrapper state is unchanged. -/
theorem c7_createPlaylist_behaviour (t : Transport) (s : WrapperState)
    (uid nm d : String) (pb : Bool) :
    (createPlaylist t uid nm d pb s).2.2 =
      [HttpCall.postJson ("https://api.spotify.com/v1/users/" ++ uid ++ "/playlists")
        (Json.obj [("name", Json.str nm), ("description", Json.str d),
          ("public", Json.bool pb)]) s.accessToken] ∧
    ((createPlaylist t uid nm d pb s).2.2.countP isAuthEvent) = 0 ∧
    (createPlaylist t uid nm d pb s).1 =
      getResult t (HttpCall.postJson
        ("https://api.spotify.com/v1/users/" ++ uid ++ "/playlists")
        (Json.obj [("name", Json.str nm), ("description", Json.str d),
          ("public", Json.bool pb)]) s.accessToken) ∧
    (createPlaylist t uid nm d pb s).2.1 = s := by
  cases h : t (HttpCall.postJson
      ("https://api.spotify.com/v1/users/" ++ uid ++ "/playlists")
      (Json.obj [("name", Json.str nm), ("description", Json.str d),
        ("public", Json.bool pb)]) s.accessToken) with
  | success b =>
    refine ⟨?_, ?_, ?_, ?_⟩ <;>
      simp [createPlaylist, getResult, h, List.countP, List.countP.go, isAuthEvent]
  | failure =>
    refine ⟨?_, ?_, ?_, ?_⟩ <;>
      simp [createPlaylist, getResult, h, List.countP, List.countP.go, isAuthEvent]

/-- C8: `addTracksToPlaylist` issues exactly one JSON POST — with body
`uris = trackUris` and the token held at call time, no authentication
POST — and resolves to no value with the state unchanged, whatever the
transport answers. -/
theorem c8_addTracks_behaviour (t : Transport) (s : WrapperState)
    (pid : String) (uris : List String) :
    addTracksToPlaylist t pid uris s =
      ((), s, [HttpCall.postJson
        ("https://api.spotify.com/v1/playlists/" ++ pid ++ "/tracks")
        (Json.obj [("uris", Json.arr (uris.map Json.str))]) s.accessToken]) ∧
    ((addTracksToPlaylist t pid uris s).2.2.countP isAuthEvent) = 0 := by
  cases h : t (HttpCall.postJson
      ("https://api.spotify.com/v1/playlists/" ++ pid ++ "/tracks")
      (Json.obj [("uris", Json.arr (uris.map Json.str))]) s.accessToken) with
  | success b =>
    refine ⟨?_, ?_⟩ <;>
      simp [addTracksToPlaylist, h, List.countP, List.countP.go, isAuthEvent]
  | failure =>
    refine ⟨?_, ?_⟩ <;>
      simp [addTracksToPlaylist, h, List.countP, List.countP.go, isAuthEvent]

/-- C9: a failing token POST leaves `accessToken` at its previous value;
a successful one overwrites it with the body's `access_token` field
(absent field included, which overwrites with `undefined`); in both cases
`authenticate` returns normally to the caller, its trace being the single
token POST. -/
theorem c9_authenticate_token_update (t : Transport) (s : WrapperState) :
    (t (HttpCall.postToken s.clientId s.clientSecret) = HttpResult.failure →
      (authenticate t s).1.accessToken = s.accessToken) ∧
    (∀ body v, t (HttpCall.postToken s.clientId s.clientSecret) = HttpResult.success body →
      accessField body "access_token" = Except.ok v →
      (authenticate t s).1.accessToken = v) ∧
    (authenticate t s).2 = [HttpCall.postToken s.clientId s.clientSecret] := by
  refine ⟨?_, ?_, ?_⟩
  · intro h
    rw [authenticate_eq]
    simp [authToken, h]
  · intro body v h hf
    rw [authenticate_eq]
    simp [authToken, h, hf]
  · rw [authenticate_eq]

/-- C9 witness: the failure case on the all-failing transport keeps the
unset token; the success case on the scenario transport stores `"tok"`. -/
theorem c9_authenticate_token_update_witness :
    (authenticate tAllFail sampleState).1.accessToken = none ∧
    (authenticate tScenario sampleState).1.accessToken = some (Json.str "tok") := by
  constructor
  · exact (c9_authenticate_token_update tAllFail sampleState).1 rfl
  · exact (c9_authenticate_token_update tScenario sampleState).2.1
      tokenBody (some (Json.str "tok")) rfl rfl

/-- C6: when the playlist GET fails, `analyzePlaylist` resolves to the
absent value and its whole trace is the one auth POST plus the one
playlist GET — zero feature requests. -/
theorem c6_analyze_absent_playlist (t : Transport) (s : WrapperState) (pid : String)
    (hfail : t (HttpCall.get ("https://api.spotify.com/v1/playlists/" ++ pid) []
        (tokenAfter t s)) = HttpResult.failure) :
    (analyzePlaylist t pid s).1 = Except.ok none ∧
    (analyzePlaylist t pid s).2.2 =
      [HttpCall.postToken s.clientId s.clientSecret,
       HttpCall.get ("https://api.spotify.com/v1/playlists/" ++ pid) [] (tokenAfter t s)] ∧
    ((analyzePlaylist t pid s).2.2.countP isGetEvent) = 1 := by
  simp only [tokenAfter] at hfail
  refine ⟨?_, ?_, ?_⟩ <;>
    simp [analyzePlaylist, getPlaylist, makeRequest_eq, getResult, hfail, tokenAfter,
      List.countP, List.countP.go, isGetEvent]

/-- C6 witness: evaluated on the all-GETs-fail transport. -/
theorem c6_analyze_absent_playlist_witness :
    (analyzePlaylist tAllGetsFail "p1" sampleState).1 = Except.ok none ∧
    (analyzePlaylist tAllGetsFail "p1" sampleState).2.2 =
      [HttpCall.postToken "id1" "secret1",
       HttpCall.get "https://api.spotify.com/v1/playlists/p1" []
         (some (Json.str "tok"))] ∧
    ((analyzePlaylist tAllGetsFail "p1" sampleState).2.2.countP isGetEvent) = 1 :=
  c6_analyze_absent_playlist tAllGetsFail sampleState "p1" rfl

/-- C10: a successfully fetched playlist whose `tracks.items` array is
empty makes `analyzePlaylist` return a present empty list — not the
absent value — and issue zero feature requests. -/
theorem c10_analyze_empty_playlist (t : Transport) (s : WrapperState)
    (pid : String) (body : Json)
    (hsucc : t (HttpCall.get ("https://api.spotify.com/v1/playlists/" ++ pid) []
        (tokenAfter t s)) = HttpResult.success body)
    (htruthy : jsFalsy (some body) = false)
    (hempty : getItemsArray body = Except.ok ([] : List Json)) :
    (analyzePlaylist t pid s).1 = Except.ok (some []) ∧
    (analyzePlaylist t pid s).2.2 =
      [HttpCall.postToken s.clientId s.clientSecret,
       HttpCall.get ("https://api.spotify.com/v1/playlists/" ++ pid) [] (tokenAfter t s)] ∧
    ((analyzePlaylist t pid s).2.2.countP isGetEvent) = 1 := by
  simp only [tokenAfter] at hsucc
  refine ⟨?_, ?_, ?_⟩ <;>
    simp [analyzePlaylist, getPlaylist, makeRequest_eq, getResult, hsucc, htruthy,
      hempty, analyzeLoop, tokenAfter, List.countP, List.countP.go, isGetEvent]

/-- C10 witness: evaluated on the transport serving the empty playlist. -/
theorem c10_analyze_empty_playlist_witness :
    (analyzePlaylist tEmptyPlaylist "p2" sampleState).1 = Except.ok (some []) ∧
    (analyzePlaylist tEmptyPlaylist "p2" sampleState).2.2 =
      [HttpCall.postToken "id1" "secret1",
       HttpCall.get "https://api.spotify.com/v1/playlists/p2" []
         (some (Json.str "tok"))] ∧
    ((analyzePlaylist tEmptyPlaylist "p2" sampleState).2.2.countP isGetEvent) = 1 :=
  c10_analyze_empty_playlist tEmptyPlaylist sampleState "p2" emptyPlaylistBody rfl rfl rfl

theorem countP_get_flatMap (c k : String) (tok : Option Json)
    (ids : List (Option Json)) :
    ((ids.flatMap fun v =>
        [HttpCall.postToken c k, HttpCall.get (featUrl v) [] tok]).countP isGetEvent)
      = ids.length := by
  induction ids with
  | nil => rfl
  | cons v rest ih =>
    simp [List.flatMap_cons, List.countP_cons, isGetEvent, ih]

/-- C2: on a successfully fetched, truthy playlist whose items and track
ids are all readable, `analyzePlaylist` succeeds (no throw, not absent),
its result is exactly the per-track transport outcome in playlist order —
a failed individual feature GET contributing `none` in its slot — with
one entry and one feature GET per track (the trace holds the playlist
fetch followed by one auth POST and one feature GET per track, in input
order, `ids.length = items.length` many). -/
theorem c2_analyzePlaylist_fanout (t : Transport) (s : WrapperState)
    (pid : String) (body : Json) (items : List Json) (ids : List (Option Json))
    (hsucc : t (HttpCall.get ("https://api.spotify.com/v1/playlists/" ++ pid) []
        (tokenAfter t s)) = HttpResult.success body)
    (htruthy : jsFalsy (some body) = false)
    (hitems : getItemsArray body = Except.ok items)
    (hids : idsOfItems items = Except.ok ids) :
    (analyzePlaylist t pid s).1 =
      Except.ok (some (ids.map fun v =>
        getResult t (HttpCall.get (featUrl v) [] (tokenAfter t s)))) ∧
    ids.length = items.length ∧
    (analyzePlaylist t pid s).2.2 =
      HttpCall.postToken s.clientId s.clientSecret ::
      HttpCall.get ("https://api.spotify.com/v1/playlists/" ++ pid) [] (tokenAfter t s) ::
      (ids.flatMap fun v =>
        [HttpCall.postToken s.clientId s.clientSecret,
         HttpCall.get (featUrl v) [] (tokenAfter t s)]) ∧
    ((ids.flatMap fun v =>
        [HttpCall.postToken s.clientId s.clientSecret,
         HttpCall.get (featUrl v) [] (tokenAfter t s)]).countP isGetEvent)
      = ids.length := by
  have hst : authToken t s.clientId s.clientSecret (tokenAfter t s) = tokenAfter t s := by
    simp only [tokenAfter]
    exact authToken_idem t s.clientId s.clientSecret s.accessToken
  have hloop := analyzeLoop_ok t s.clientId s.clientSecret (tokenAfter t s) hst items ids hids
  simp only [tokenAfter] at hsucc hloop ⊢
  refine ⟨?_, idsOfItems_length items ids hids, ?_, ?_⟩
  · simp [analyzePlaylist, getPlaylist, makeRequest_eq, getResult, hsucc, htruthy,
      hitems, hloop]
  · simp [analyzePlaylist, getPlaylist, makeRequest_eq, getResult, hsucc, htruthy,
      hitems, hloop]
  · have := countP_get_flatMap s.clientId s.clientSecret
      (authToken t s.clientId s.clientSecret s.accessToken) ids
    exact this

/-- C2 witness: the spec's two-track scenario — the features of `t1`
resolve, the fetch for `t2` fails, and the result is
`[some featBody1, none]` with the six-call trace in input order. -/
theorem c2_analyzePlaylist_fanout_witness :
    (analyzePlaylist tScenario "p1" sampleState).1 =
      Except.ok (some [some featBody1, none]) ∧
    (analyzePlaylist tScenario "p1" sampleState).2.2 =
      [HttpCall.postToken "id1" "secret1",
       HttpCall.get "https://api.spotify.com/v1/playlists/p1" [] (some (Json.str "tok")),
       HttpCall.postToken "id1" "secret1",
       HttpCall.get "https://api.spotify.com/v1/audio-features/t1" [] (some (Json.str "tok")),
       HttpCall.postToken "id1" "secret1",
       HttpCall.get "https://api.spotify.com/v1/audio-features/t2" [] (some (Json.str "tok"))] := by
  have h := c2_analyzePlaylist_fanout tScenario sampleState "p1" playlistBody
    [Json.obj [("track", Json.obj [("id", Json.str "t1"), ("name", Json.str "A")])],
     Json.obj [("track", Json.obj [("id", Json.str "t2"), ("name", Json.str "B")])]]
    [some (Json.str "t1"), some (Json.str "t2")] rfl rfl rfl rfl
  refine ⟨?_, ?_⟩
  · rw [h.1]
    simp [getResult, tScenario, featUrl, jsTemplate, Json.jsToString, tokenAfter,
      authToken, sampleState, mkWrapper, tokenBody, accessField, featBody1]
  · rw [h.2.2.1]
    simp [featUrl, jsTemplate, Json.jsToString, tokenAfter, authToken, sampleState,
      mkWrapper, tokenBody, accessField, tScenario]

theorem optChain1_eq (d : Json) (f : String) (v : Option Json)
    (h : accessField d f = Except.ok v) : optChain1 (some d) f = v := by
  cases d <;> simp_all [optChain1, accessField]

theorem optChain2_eq (d v : Json) (f1 f2 : String)
    (h : accessField d f1 = Except.ok (some v)) :
    optChain2 (some d) f1 f2 = accessField v f2 := by
  cases d <;> simp_all [optChain2, accessField]

/-- C4: on a successful GET the read methods return the transport's JSON
body with exactly the documented unwrapping — `getPlaylist`, `getAlbum`,
`getArtist` and `getUserProfile` verbatim, `searchTracks` exactly
`response.tracks.items`, `getArtistTopTracks` exactly `response.tracks`,
`getArtistAlbums` exactly `response.items`. -/
theorem c4_success_returns_body (t : Transport) (s : WrapperState)
    (pid alid aid uid q market : String)
    (pbody albody arbody ubody sbody strk sitems tbody ttracks abody aitems : Json)
    (h1 : t (HttpCall.get ("https://api.spotify.com/v1/playlists/" ++ pid) []
        (tokenAfter t s)) = HttpResult.success pbody)
    (h2 : t (HttpCall.get ("https://api.spotify.com/v1/albums/" ++ alid) []
        (tokenAfter t s)) = HttpResult.success albody)
    (h3 : t (HttpCall.get ("https://api.spotify.com/v1/artists/" ++ aid) []
        (tokenAfter t s)) = HttpResult.success arbody)
    (h4 : t (HttpCall.get ("https://api.spotify.com/v1/users/" ++ uid) []
        (tokenAfter t s)) = HttpResult.success ubody)
    (h5 : t (HttpCall.get "https://api.spotify.com/v1/search"
        [("q", q), ("type", "track")] (tokenAfter t s)) = HttpResult.success sbody)
    (h6 : accessField sbody "tracks" = Except.ok (some strk))
    (h7 : accessField strk "items" = Except.ok (some sitems))
    (h8 : t (HttpCall.get ("https://api.spotify.com/v1/artists/" ++ aid ++ "/top-tracks")
        [("market", market)] (tokenAfter t s)) = HttpResult.success tbody)
    (h9 : accessField tbody "tracks" = Except.ok (some ttracks))
    (h10 : t (HttpCall.get ("https://api.spotify.com/v1/artists/" ++ aid ++ "/albums")
        [] (tokenAfter t s)) = HttpResult.success abody)
    (h11 : accessField abody "items" = Except.ok (some aitems)) :
    (getPlaylist t pid s).1 = some pbody ∧
    (getAlbum t alid s).1 = some albody ∧
    (getArtist t aid s).1 = some arbody ∧
    (getUserProfile t uid s).1 = some ubody ∧
    (searchTracks t q s).1 = Except.ok (some sitems) ∧
    (getArtistTopTracks t aid market s).1 = some ttracks ∧
    (getArtistAlbums t aid s).1 = some aitems := by
  simp only [tokenAfter] at h1 h2 h3 h4 h5 h8 h10
  refine ⟨?_, ?_, ?_, ?_, ?_, ?_, ?_⟩
  · simp [getPlaylist, makeRequest_eq, getResult, h1]
  · simp [getAlbum, makeRequest_eq, getResult, h2]
  · simp [getArtist, makeRequest_eq, getResult, h3]
  · simp [getUserProfile, makeRequest_eq, getResult, h4]
  · have hb : (searchTracks t q s).1 = optChain2 (some sbody) "tracks" "items" := by
      simp [searchTracks, makeRequest_eq, getResult, h5]
    rw [hb, optChain2_eq sbody strk _ _ h6, h7]
  · have hb : (getArtistTopTracks t aid market s).1 = optChain1 (some tbody) "tracks" := by
      simp [getArtistTopTracks, makeRequest_eq, getResult, h8]
    rw [hb, optChain1_eq tbody _ _ h9]
  · have hb : (getArtistAlbums t aid s).1 = optChain1 (some abody) "items" := by
      simp [getArtistAlbums, makeRequest_eq, getResult, h10]
    rw [hb, optChain1_eq abody _ _ h11]

/-- C4 witness: evaluated on the per-endpoint success transport — the
plain entities come back verbatim and the three envelopes are unwrapped
exactly one level. -/
theorem c4_success_returns_body_witness :
    (getPlaylist tUnwrap "p1" sampleState).1 = some entityBody ∧
    (getAlbum tUnwrap "al1" sampleState).1 = some entityBody ∧
    (getArtist tUnwrap "ar1" sampleState).1 = some entityBody ∧
    (getUserProfile tUnwrap "u1" sampleState).1 = some entityBody ∧
    (searchTracks tUnwrap "hello" sampleState).1 =
      Except.ok (some (Json.arr [Json.obj [("id", Json.str "t1")]])) ∧
    (getArtistTopTracks tUnwrap "ar1" "US" sampleState).1 =
      some (Json.arr [Json.obj [("id", Json.str "t9")]]) ∧
    (getArtistAlbums tUnwrap "ar1" sampleState).1 =
      some (Json.arr [Json.obj [("id", Json.str "al1")]]) :=
  c4_success_returns_body tUnwrap sampleState "p1" "al1" "ar1" "u1" "hello" "US"
    entityBody entityBody entityBody entityBody searchBody
    (Json.obj [("items", Json.arr [Json.obj [("id", Json.str "t1")]])])
    (Json.arr [Json.obj [("id", Json.str "t1")]])
    topTracksBody (Json.arr [Json.obj [("id", Json.str "t9")]])
    artistAlbumsBody (Json.arr [Json.obj [("id", Json.str "al1")]])
    rfl rfl rfl rfl rfl rfl rfl rfl rfl rfl rfl
